import Mathlib

/-!
Shallow embedding of the data-preparation pipeline
(src/collection/poi_overture.py and src/preparation/public_transport_stop.py)
together with theorems settling the frozen claims about it.

Geometries are opaque: a stop or place carries a value of a type parameter G
and the spatial predicate ST_Intersects is a supplied boolean function, since
the spatial engine is an external collaborator of the pipeline.
-/

namespace DataPreparation

/-! ## Generic list helpers (SQL ORDER BY / counting) -/

/-- Insertion into an ascending list, the building block of an ascending sort. -/
def insertAsc (n : Int) : List Int → List Int
  | [] => [n]
  | m :: ms => if n ≤ m then n :: m :: ms else m :: insertAsc n ms

/-- Ascending sort of a list of integers; models the SQL ORDER BY r.route_type. -/
def sortAsc (l : List Int) : List Int := l.foldr insertAsc []

theorem mem_insertAsc {x n : Int} {l : List Int} : x ∈ insertAsc n l ↔ x = n ∨ x ∈ l := by
  induction l with
  | nil => simp [insertAsc]
  | cons m ms ih =>
    by_cases h : n ≤ m
    · simp [insertAsc, h]
    · simp [insertAsc, h, ih]
      tauto

theorem mem_sortAsc {x : Int} {l : List Int} : x ∈ sortAsc l ↔ x ∈ l := by
  induction l with
  | nil => simp [sortAsc]
  | cons m ms ih => simp [sortAsc, mem_insertAsc, List.foldr] at ih ⊢; tauto

/-- Counting lemma: a predicate that holds exactly at one member of a
duplicate-free list counts to one. -/
theorem countP_eq_one_of_mem_unique {α : Type} (p : α → Bool) (k : α) (l : List α)
    (hnd : l.Nodup) (hk : k ∈ l) (hp : ∀ x ∈ l, p x = true ↔ x = k) :
    l.countP p = 1 := by
  induction l with
  | nil => cases hk
  | cons a l ih =>
    rw [List.countP_cons]
    rcases List.mem_cons.mp hk with rfl | hk2
    · have ha : p k = true := (hp _ (List.mem_cons_self _ _)).mpr rfl
      have hz : l.countP p = 0 := by
        rw [List.countP_eq_zero]
        intro x hx hpx
        have hxa := (hp x (List.mem_cons_of_mem _ hx)).mp hpx
        subst hxa
        exact (List.nodup_cons.mp hnd).1 hx
      simp [ha, hz]
    · have hane : a ≠ k := by
        intro h
        subst h
        exact (List.nodup_cons.mp hnd).1 hk2
      have hpa : p a = false := by
        cases hpc : p a
        · rfl
        · exact absurd ((hp _ (List.mem_cons_self _ _)).mp hpc) hane
      have hrec := ih (List.nodup_cons.mp hnd).2 hk2
        (fun x hx => hp x (List.mem_cons_of_mem _ hx))
      simp [hpa, hrec]

/-! ## GTFS model (src/preparation/public_transport_stop.py)

basic.stops rows, basic.stop_times_optimized rows, and the classification
mapping data_config.preparation['classification']['gtfs_route_types']
(a JSON object from a route-type code to a category or JSON null). -/

/-- A row of basic.stops.  The geometry is opaque (type parameter G). -/
structure Stop (G : Type) where
  stop_id : String
  stop_name : String
  parent_station : Option String
  h3_3 : Int
  geom : G
  deriving DecidableEq

/-- A row of basic.stop_times_optimized (the columns the preparation reads). -/
structure StopTime where
  stop_id : String
  h3_3 : Int
  route_type : Int
  deriving DecidableEq

/-- The gtfs_route_types classification object: route-type code to mapped
category; a value none models a JSON null value for a present key. -/
def Classification : Type := List (Int × Option String)

/-- The keys of the classification object, as interpolated into
o.route_type IN (...). -/
def routeTypeKeys (cls : Classification) : List Int := cls.map Prod.fst

/-- The jsonb lookup cls ->> rt: NULL both when the key is absent and when
the stored value is JSON null. -/
def lookupRouteType (cls : Classification) (rt : Int) : Option String :=
  match cls.find? (fun kv => kv.1 == rt) with
  | some kv => kv.2
  | none => none

/-- A row of the clipped_gfts_stops CTE: a display name, the stop geometry
and the tags object json_build_object('stop_id', .., 'parent_station', ..,
'h3_3', ..) with its fields flattened (pass 2 builds no parent_station key,
modelled as none). -/
structure ClippedStop (G : Type) where
  name : String
  geom : G
  stop_id : String
  parent_station : Option String
  h3_3 : Int
  deriving DecidableEq

/-- The parent_station_name CTE of pass 1: stops without a parent reference
that intersect the polygon, projected to (stop_name, stop_id). -/
def parentStationName {G : Type} (stops : List (Stop G)) (inPoly : G → Bool) :
    List (String × String) :=
  (stops.filter (fun s => inPoly s.geom && s.parent_station.isNone)).map
    (fun s => (s.stop_name, s.stop_id))

/-- The clipped_gfts_stops CTE of pass 1: child stops intersecting the
polygon joined to the parent rows they reference; the row's name is the
parent's stop_name. -/
def clippedGtfsStops {G : Type} (stops : List (Stop G)) (inPoly : G → Bool) :
    List (ClippedStop G) :=
  (stops.filter (fun s => inPoly s.geom && s.parent_station.isSome)).flatMap
    (fun s => (parentStationName stops inPoly).filterMap
      (fun p => if s.parent_station = some p.2 then
        some ⟨p.1, s.geom, s.stop_id, s.parent_station, s.h3_3⟩ else none))

/-- The inner subquery r of the lateral join: the DISTINCT route types of the
stop's stop-time rows in the same h3_3 partition restricted to the
classification keys, in ascending order (ORDER BY r.route_type). -/
def distinctRouteTypes (stopTimes : List StopTime) (sid : String) (h3 : Int)
    (keys : List Int) : List Int :=
  sortAsc (((stopTimes.filter
    (fun o => o.stop_id == sid && o.h3_3 == h3 && keys.contains o.route_type)).map
      (fun o => o.route_type)).dedup)

/-- The values produced by the lateral subquery for one clipped stop: each
distinct route type mapped through the classification object.  The source
filter WHERE route_type IS NOT NULL resolves to the raw column r.route_type
(never null there), not to the select alias, so null mapped values pass
through; and the subquery carries no LIMIT, so every mapped value is kept. -/
def mappedCategories {G : Type} (cls : Classification) (stopTimes : List StopTime)
    (c : ClippedStop G) : List (Option String) :=
  (distinctRouteTypes stopTimes c.stop_id c.h3_3 (routeTypeKeys cls)).map
    (lookupRouteType cls)

/-- The categorized_gtfs_stops CTE built from an already clipped stop list:
the CROSS JOIN LATERAL repeats the clipped row once per value of the lateral
subquery. -/
def categorizedFrom {G : Type} (cls : Classification) (stopTimes : List StopTime)
    (clipped : List (ClippedStop G)) : List (Option String × ClippedStop G) :=
  clipped.flatMap (fun c => (mappedCategories cls stopTimes c).map (fun cat => (cat, c)))

/-- categorized_gtfs_stops of pass 1. -/
def categorizedGtfsStops {G : Type} (stops : List (Stop G)) (stopTimes : List StopTime)
    (cls : Classification) (inPoly : G → Bool) : List (Option String × ClippedStop G) :=
  categorizedFrom cls stopTimes (clippedGtfsStops stops inPoly)

/-- A row inserted into basic.poi_public_transport_stop_<region>: the source
column is always NULL; the geometry column ST_Multi(ST_Union(...)) is kept as
the list of aggregated member geometries. -/
structure PTStopRow (G : Type) where
  category : Option String
  name : String
  stop_ids : List String
  parent_station : Option String
  geom : List G
  deriving DecidableEq

/-- Grouping key of the pass-1 outer SELECT:
GROUP BY route_type, tags ->> 'parent_station', name. -/
def pass1Key {G : Type} (e : Option String × ClippedStop G) :
    Option String × Option String × String :=
  (e.1, e.2.parent_station, e.2.name)

/-- The aggregated output row of one pass-1 group (ARRAY_AGG of the stop ids,
ST_Multi(ST_Union) of the geometries). -/
def pass1RowOf {G : Type} (catz : List (Option String × ClippedStop G))
    (k : Option String × Option String × String) : PTStopRow G :=
  ⟨k.1, k.2.2, (catz.filter (fun e => pass1Key e == k)).map (fun e => e.2.stop_id),
    k.2.1, (catz.filter (fun e => pass1Key e == k)).map (fun e => e.2.geom)⟩

/-- The pass-1 grouped SELECT over the categorized rows. -/
def pass1Rows {G : Type} [DecidableEq G] (catz : List (Option String × ClippedStop G)) :
    List (PTStopRow G) :=
  ((catz.map pass1Key).dedup).map (pass1RowOf catz)

/-- One pass-1 INSERT (a single polygon iteration) of classify_gtfs_stop_sql. -/
def pass1Insert {G : Type} [DecidableEq G] (stops : List (Stop G))
    (stopTimes : List StopTime) (cls : Classification) (inPoly : G → Bool) :
    List (PTStopRow G) :=
  pass1Rows (categorizedGtfsStops stops stopTimes cls inPoly)

/-- The clipped_gfts_stops CTE of pass 2: rows of temporal.remaining_stations
intersecting the polygon; the name is the stop's own stop_name and the tags
object has no parent_station key. -/
def clippedRemainingStops {G : Type} (remaining : List (Stop G)) (inPoly : G → Bool) :
    List (ClippedStop G) :=
  (remaining.filter (fun s => inPoly s.geom)).map
    (fun s => ⟨s.stop_name, s.geom, s.stop_id, none, s.h3_3⟩)

/-- Grouping key of the pass-2 outer SELECT: GROUP BY route_type, stop_name. -/
def pass2Key {G : Type} (e : Option String × ClippedStop G) : Option String × String :=
  (e.1, e.2.name)

/-- The aggregated output row of one pass-2 group; its tags carry no
parent_station key. -/
def pass2RowOf {G : Type} (catz : List (Option String × ClippedStop G))
    (k : Option String × String) : PTStopRow G :=
  ⟨k.1, k.2, (catz.filter (fun e => pass2Key e == k)).map (fun e => e.2.stop_id),
    none, (catz.filter (fun e => pass2Key e == k)).map (fun e => e.2.geom)⟩

/-- The pass-2 grouped SELECT over the categorized rows. -/
def pass2Rows {G : Type} [DecidableEq G] (catz : List (Option String × ClippedStop G)) :
    List (PTStopRow G) :=
  ((catz.map pass2Key).dedup).map (pass2RowOf catz)

/-- One pass-2 INSERT (a single polygon iteration) of classify_gtfs_stop_sql
over the remaining stations. -/
def pass2Insert {G : Type} [DecidableEq G] (remaining : List (Stop G))
    (stopTimes : List StopTime) (cls : Classification) (inPoly : G → Bool) :
    List (PTStopRow G) :=
  pass2Rows (categorizedFrom cls stopTimes (clippedRemainingStops remaining inPoly))

/-! ## temporal.remaining_stations (remaining_stops_sql) -/

/-- The stop identifiers contributed by one output row to the first branch of
the processed_staions CTE:
unnest(string_to_array(tags ->> 'parent_station', ',')).
A null parent_station text yields no rows. -/
def parentLinkIds {G : Type} (r : PTStopRow G) : List String :=
  match r.parent_station with
  | some p => p.splitOn ","
  | none => []

/-- The processed_staions CTE: the UNION (set union) of the parent-station
linkage ids and the aggregated extended_source stop ids of all output rows. -/
def processedStations {G : Type} (rows : List (PTStopRow G)) : List String :=
  ((rows.flatMap parentLinkIds) ++ (rows.flatMap (fun r => r.stop_ids))).dedup

/-- temporal.remaining_stations: the anti-join of basic.stops against the
processed stations (LEFT JOIN ... WHERE ps.stop_id IS NULL). -/
def remainingStations {G : Type} (stops : List (Stop G)) (rows : List (PTStopRow G)) :
    List (Stop G) :=
  stops.filter (fun s => !((processedStations rows).contains s.stop_id))

/-! ## Control structure of PublicTransportStopPreparation.run -/

/-- One step of PublicTransportStopPreparation.run, in execution order. -/
inductive PrepStep where
  | pass1Polygon : Nat → PrepStep
  | computeRemainingStations : PrepStep
  | pass2Polygon : Nat → PrepStep
  deriving DecidableEq

/-- The sequence of statements run executes for a region with numGeoms
polygons: the pass-1 loop, then one remaining_stops_sql, then the pass-2
loop. -/
def prepRunSteps (numGeoms : Nat) : List PrepStep :=
  ((List.range numGeoms).map PrepStep.pass1Polygon)
    ++ [PrepStep.computeRemainingStations]
    ++ ((List.range numGeoms).map PrepStep.pass2Polygon)

/-- How many times a run computes temporal.remaining_stations. -/
def countRemainingComputations (steps : List PrepStep) : Nat :=
  steps.countP (fun st => st == PrepStep.computeRemainingStations)

/-! ## Concrete transit inputs (geometries are Nat handles) -/

/-- Example stops: a parent station P1 and one child stop S1 referencing it. -/
def stopsEx : List (Stop Nat) :=
  [⟨"P1", "Hbf", none, 100, 0⟩, ⟨"S1", "Hbf Gleis 1", some "P1", 100, 1⟩]

/-- Example stop-time facts: S1 is served by route types 2 and 5. -/
def stopTimesEx : List StopTime := [⟨"S1", 100, 2⟩, ⟨"S1", 100, 5⟩]

/-- Example classification mapping both route types to distinct categories. -/
def clsEx : Classification := [(2, some "tram"), (5, some "ferry")]

/-- Example stop-time facts: S1 is served by route type 5 only. -/
def stopTimesEx2 : List StopTime := [⟨"S1", 100, 5⟩]

/-- Example classification whose key 5 is mapped to JSON null. -/
def clsEx2 : Classification := [(2, some "tram"), (5, none)]

/-- Example classification containing only the key 2. -/
def clsEx3 : Classification := [(2, some "tram")]

/-- Example remaining station R1 without a parent, for pass 2. -/
def remainingEx : List (Stop Nat) := [⟨"R1", "Marktplatz", none, 100, 7⟩]

/-- Example stop-time facts: R1 is served by route types 2 and 5. -/
def stopTimesEx3 : List StopTime := [⟨"R1", 100, 2⟩, ⟨"R1", 100, 5⟩]

/-! ## Overture places (src/collection/poi_overture.py)

The free-form address split of clip_poi_overture:
  street      = TRIM(substring(freeform from '^(.*)(?=\s\d)'))
  housenumber = TRIM(substring(freeform from '(\s\d.*)$'))
substring returns the first parenthesized group of the match, or NULL when
the pattern does not match.  Postgres advanced regexes are greedy here, so
the street pattern captures the longest prefix followed by a
whitespace-then-digit position, while the housenumber pattern starts at the
leftmost such position. -/

/-- The character class of the regex escape backslash-s ([[:space:]]). -/
def isSpaceChar (ch : Char) : Bool :=
  ch == ' ' || ch == '\t' || ch == '\n' || ch == '\r'
    || ch == Char.ofNat 11 || ch == Char.ofNat 12

/-- The character class of the regex escape backslash-d ([0-9]). -/
def isDigitChar (ch : Char) : Bool := '0' ≤ ch && ch ≤ '9'

/-- The boundary positions of an address: indexes i where character i is
whitespace and character i+1 a digit.  Listed in increasing order. -/
def boundaryIdxs (s : List Char) : List Nat :=
  (List.range s.length).filter
    (fun i => match s.get? i, s.get? (i + 1) with
      | some a, some b => isSpaceChar a && isDigitChar b
      | _, _ => false)

/-- SQL TRIM(text): strip leading and trailing space characters. -/
def trimSpaces (l : List Char) : List Char :=
  ((l.dropWhile (fun ch => ch == ' ')).reverse.dropWhile (fun ch => ch == ' ')).reverse

/-- The street expression: the greedy group of '^(.*)(?=\s\d)' keeps
everything before the LAST boundary; no boundary means no match (NULL). -/
def streetOf (s : String) : Option String :=
  ((boundaryIdxs s.toList).getLast?).map
    (fun i => String.mk (trimSpaces (s.toList.take i)))

/-- The housenumber expression: '(\s\d.*)$' matches from the leftmost
boundary to the end of the string; no boundary means no match (NULL). -/
def housenumberOf (s : String) : Option String :=
  ((boundaryIdxs s.toList).head?).map
    (fun i => String.mk (trimSpaces (s.toList.drop i)))

/-- An element of the addresses jsonb array of an Overture place. -/
structure OvertureAddress where
  freeform : Option String
  postcode : Option String
  deriving DecidableEq

/-- A row of temporal.places_<region>_raw, the staging table feeding the
Geometry-Clip Loop.  The jsonb path extractions of the SELECT are modelled by
carrying the value at each accessed path as a field: namesCommonValue is
names->'common'->0->'value', categoriesMain is categories->>'main',
categoriesAlt0/1 are categories->'alternate'->>0/1, brandName is
brand->'names'->'common'->0->>'value'.  Passthrough payload columns are kept
as opaque text. -/
structure PlaceRaw (G : Type) where
  id : String
  namesCommonValue : Option String
  categoriesMain : Option String
  categoriesAlt0 : Option String
  categoriesAlt1 : Option String
  brandName : Option String
  addresses : List OvertureAddress
  updatetime : Int
  version : Int
  confidence : Rat
  websites : String
  socials : String
  emails : String
  phones : String
  sources : String
  geometry : G
  deriving DecidableEq

/-- A row of temporal.places_<region> produced by clip_poi_overture. -/
structure PlaceRow (G : Type) where
  id : String
  names : Option String
  other_categories : List String
  categories : Option String
  street : Option String
  housenumber : Option String
  zipcode : Option String
  brand : Option String
  updatetime : Int
  version : Int
  confidence : Rat
  websites : String
  socials : String
  emails : String
  phones : String
  addresses : List OvertureAddress
  sources : String
  geometry : G
  deriving DecidableEq

/-- The other_categories CASE expression: when either alternate is non-null,
ARRAY_REMOVE(ARRAY_REMOVE(ARRAY[alt0, alt1], NULL), ''), else an empty
array. -/
def otherCategories (a0 a1 : Option String) : List String :=
  if a0.isSome || a1.isSome then
    (([a0, a1].filterMap id).filter (fun s => !(s == "")))
  else []

/-- The freeform address text np.addresses::jsonb->0->>'freeform'. -/
def addrFreeform {G : Type} (p : PlaceRaw G) : Option String :=
  (p.addresses.head?).bind (fun a => a.freeform)

/-- The SELECT list of clip_poi_overture applied to one deduplicated staging
row. -/
def placeSelect {G : Type} (p : PlaceRaw G) : PlaceRow G :=
  ⟨p.id, p.namesCommonValue,
    otherCategories p.categoriesAlt0 p.categoriesAlt1,
    p.categoriesMain,
    (addrFreeform p).bind streetOf,
    (addrFreeform p).bind housenumberOf,
    (p.addresses.head?).bind (fun a => a.postcode),
    p.brandName, p.updatetime, p.version, p.confidence,
    p.websites, p.socials, p.emails, p.phones, p.addresses, p.sources, p.geometry⟩

/-- SELECT DISTINCT ON (p.id) with no ordering key: one arbitrary row per
id is kept; the model keeps the first occurrence. -/
def distinctOnId {G : Type} (l : List (PlaceRaw G)) : List (PlaceRaw G) :=
  l.foldl (fun acc p => if acc.any (fun q => q.id == p.id) then acc else acc ++ [p]) []

/-- The new_pois CTE: staging rows intersecting the polygon, deduplicated by
id. -/
def newPois {G : Type} (raw : List (PlaceRaw G)) (inRegion : G → Bool) :
    List (PlaceRaw G) :=
  distinctOnId (raw.filter (fun p => inRegion p.geometry))

/-- One INSERT...SELECT of the places Geometry-Clip Loop for one polygon. -/
def clipPoiOverture {G : Type} (raw : List (PlaceRaw G)) (inRegion : G → Bool) :
    List (PlaceRow G) :=
  (newPois raw inRegion).map placeSelect

/-- All rows accumulated in temporal.places_<region> by the per-polygon loop
of alter_tables (the all-inserts-succeed path): each polygon appends its own
clipped and deduplicated SELECT. -/
def alterTablesInserts {G P : Type} (raw : List (PlaceRaw G)) (geoms : List P)
    (intersects : G → P → Bool) : List (PlaceRow G) :=
  geoms.flatMap (fun g => clipPoiOverture raw (fun x => intersects x g))

/-- The post-loop migration ALTER TABLE ... ADD PRIMARY KEY (id): succeeds
exactly when the id column is duplicate-free, otherwise the statement fails
with a unique-index error. -/
def convertToRegularTable {G : Type} (rows : List (PlaceRow G)) :
    Except String (List (PlaceRow G)) :=
  if (rows.map (fun r => r.id)).Nodup then Except.ok rows
  else Except.error "could not create unique index"

/-- Example staging row (geometry handle 0). -/
def placeRawEx : PlaceRaw Nat :=
  ⟨"a", none, none, none, none, none, [], 0, 1, 1, "", "", "", "", "", 0⟩

/-! ## Spark dataframe model (OverturePOICollection.filter_region_places)

A dataframe is a column-name list plus rows of (column, value) entries.  The
transformations the code performs are tracked symbolically as constructors:
to_json wraps a value in jsonText, the TimestampType cast in timestamp, and
ST_AsText in wktText. -/

/-- A cell value of the places dataframe.  The bbox struct column carries its
four numeric fields. -/
inductive ColValue where
  | null : ColValue
  | base : String → ColValue
  | bboxStruct : Rat → Rat → Rat → Rat → ColValue
  | jsonText : ColValue → ColValue
  | timestamp : ColValue → ColValue
  | wktText : ColValue → ColValue
  deriving DecidableEq

/-- A dataframe row: an association list from column name to value. -/
abbrev DfRow : Type := List (String × ColValue)

/-- Value of a row at a column (the first matching entry); null when the
column is absent. -/
def rowVal : DfRow → String → ColValue
  | [], _ => ColValue.null
  | kv :: r, c => if kv.1 == c then kv.2 else rowVal r c

/-- Whether a row carries an entry for a column. -/
def rowHas (r : DfRow) (c : String) : Bool := r.any (fun kv => kv.1 == c)

/-- Replace the value at a column, or append the entry when absent. -/
def rowSet (r : DfRow) (c : String) (v : ColValue) : DfRow :=
  if rowHas r c then r.map (fun kv => if kv.1 == c then (kv.1, v) else kv)
  else r ++ [(c, v)]

/-- Remove a column's entry from a row. -/
def rowDrop (r : DfRow) (c : String) : DfRow :=
  r.filter (fun kv => !(kv.1 == c))

/-- The dataframe: schema columns plus rows. -/
structure SparkDataFrame where
  cols : List String
  rows : List DfRow

/-- DataFrame.filter: keeps the schema, filters the rows. -/
def SparkDataFrame.filterRows (df : SparkDataFrame) (p : DfRow → Bool) : SparkDataFrame :=
  ⟨df.cols, df.rows.filter p⟩

/-- DataFrame.drop: removes the column from schema and rows. -/
def SparkDataFrame.dropColumn (df : SparkDataFrame) (c : String) : SparkDataFrame :=
  ⟨df.cols.filter (fun x => !(x == c)), df.rows.map (fun r => rowDrop r c)⟩

/-- DataFrame.withColumn: replaces the column when present, else appends it. -/
def SparkDataFrame.withColumn (df : SparkDataFrame) (c : String) (f : DfRow → ColValue) :
    SparkDataFrame :=
  ⟨if df.cols.contains c then df.cols else df.cols ++ [c],
    df.rows.map (fun r => rowSet r c (f r))⟩

/-- DataFrame.selectExpr: projects each row to the listed output columns. -/
def SparkDataFrame.selectCols (df : SparkDataFrame)
    (sel : List (String × (DfRow → ColValue))) : SparkDataFrame :=
  ⟨sel.map (fun s => s.1), df.rows.map (fun r => sel.map (fun s => (s.1, s.2 r)))⟩

/-- The target bounding box handed to filter_region_places. -/
structure BBoxCoords where
  xmin : Rat
  ymin : Rat
  xmax : Rat
  ymax : Rat

/-- The filter predicate: bbox.minx > xmin, bbox.miny > ymin,
bbox.maxx < xmax, bbox.maxy < ymax (all strict). -/
def bboxInsideStrict (box : BBoxCoords) (r : DfRow) : Bool :=
  match rowVal r "bbox" with
  | ColValue.bboxStruct minx miny maxx maxy =>
      decide (minx > box.xmin) && decide (miny > box.ymin)
        && decide (maxx < box.xmax) && decide (maxy < box.ymax)
  | _ => false

/-- The selectExpr projection list of filter_region_places (the intermediate
whose result the following filter discards). -/
def placesProjection : List (String × (DfRow → ColValue)) :=
  [("id", fun r => rowVal r "id"),
   ("updatetime", fun r => rowVal r "updatetime"),
   ("version", fun r => rowVal r "version"),
   ("names", fun r => rowVal r "names"),
   ("categories", fun r => rowVal r "categories"),
   ("confidence", fun r => rowVal r "confidence"),
   ("websites", fun r => rowVal r "websites"),
   ("socials", fun r => rowVal r "socials"),
   ("emails", fun r => rowVal r "emails"),
   ("phones", fun r => rowVal r "phones"),
   ("brand", fun r => rowVal r "brand"),
   ("addresses", fun r => rowVal r "addresses"),
   ("sources", fun r => rowVal r "sources"),
   ("geometry", fun r => ColValue.wktText (rowVal r "geometry")),
   ("bbox", fun r => rowVal r "bbox")]

/-- The complex_columns list of filter_region_places. -/
def overtureComplexColumns : List String :=
  ["updatetime", "names", "categories", "brand", "addresses", "sources",
   "websites", "socials", "emails", "phones"]

/-- One iteration of the complex-column loop: cast updatetime to a
timestamp, serialize every other listed column to JSON text. -/
def complexColumnStep (df : SparkDataFrame) (column : String) : SparkDataFrame :=
  if column == "updatetime" then
    df.withColumn column (fun r => ColValue.timestamp (rowVal r column))
  else
    df.withColumn column (fun r => ColValue.jsonText (rowVal r column))

/-- The row-level effect of one complex-column loop iteration. -/
def complexRowStep (r : DfRow) (column : String) : DfRow :=
  if column == "updatetime" then rowSet r column (ColValue.timestamp (rowVal r column))
  else rowSet r column (ColValue.jsonText (rowVal r column))

/-- OverturePOICollection.filter_region_places: project (discarded), filter
the source dataframe on the bbox, drop bbox, transform the complex columns,
and replace geometry by its WKT text. -/
def filterRegionPlaces (placesDf : SparkDataFrame) (box : BBoxCoords) : SparkDataFrame :=
  let places := placesDf.selectCols placesProjection
  let places := placesDf.filterRows (bboxInsideStrict box)
  let places := places.dropColumn "bbox"
  let places := overtureComplexColumns.foldl complexColumnStep places
  places.withColumn "geometry" (fun r => ColValue.wktText (rowVal r "geometry"))

/-- The per-row transformation filter_region_places applies to every
surviving source row: drop bbox, run the complex-column loop, replace
geometry by its WKT text. -/
def overtureRowTransform (r : DfRow) : DfRow :=
  rowSet (overtureComplexColumns.foldl complexRowStep (rowDrop r "bbox")) "geometry"
    (ColValue.wktText
      (rowVal (overtureComplexColumns.foldl complexRowStep (rowDrop r "bbox")) "geometry"))

/-! ## Per-polygon error handling and run-level cleanup

The effect of one polygon's INSERT is abstracted as an Except value: ok with
the inserted batch, or error with the database exception.  The two loops
differ in how they consume it: alter_tables wraps the execute in
try/except (rollback and continue), while PublicTransportStopPreparation.run
calls db.perform bare, so an exception propagates. -/

/-- Observable state of a per-polygon loop: the committed batches, the
errors printed by the except branch, and how many end-of-iteration timing
log lines were printed. -/
structure LoopState (E A : Type) where
  committed : List A
  errorsLogged : List E
  timingsLogged : Nat
  deriving DecidableEq

/-- One iteration of the places loop of OverturePOICollection.alter_tables:
execute and commit inside try; on exception print the error and roll back;
either way print the timing line. -/
def alterTablesStep {E A : Type} (st : LoopState E A) (o : Except E A) : LoopState E A :=
  match o with
  | Except.ok a => ⟨st.committed ++ [a], st.errorsLogged, st.timingsLogged + 1⟩
  | Except.error e => ⟨st.committed, st.errorsLogged ++ [e], st.timingsLogged + 1⟩

/-- The places loop of OverturePOICollection.alter_tables: every polygon is
processed, whatever the earlier outcomes were. -/
def alterTablesLoop {E A : Type} (outcomes : List (Except E A)) : LoopState E A :=
  outcomes.foldl alterTablesStep ⟨[], [], 0⟩

/-- The successful batch of a polygon outcome. -/
def okBatch {E A : Type} : Except E A → Option A
  | Except.ok a => some a
  | Except.error _ => none

/-- The database error of a polygon outcome. -/
def errorOf {E A : Type} : Except E A → Option E
  | Except.ok _ => none
  | Except.error e => some e

/-- A transit-stop loop of PublicTransportStopPreparation.run: db.perform is
not guarded, so the first failing polygon raises out of the loop; later
polygons are never executed and the failed iteration logs no timing line. -/
def transitStopLoop {E A : Type} : List (Except E A) → LoopState E A →
    Except E (LoopState E A)
  | [], st => Except.ok st
  | Except.ok a :: rest, st =>
      transitStopLoop rest ⟨st.committed ++ [a], st.errorsLogged, st.timingsLogged + 1⟩
  | Except.error e :: _, _ => Except.error e

/-- Final connection state of an entry point: which connections were closed
and whether an error was printed, next to the propagated outcome. -/
structure CleanupResult (E : Type) where
  localClosed : Bool
  remoteClosed : Bool
  errorPrinted : Bool
  outcome : Except E Unit

/-- collect_poi_overture: try (run; close both; print info) /
except (print error; re-raise) / finally (close both).  The finally clause
closes both connections on every path. -/
def collectPoiOverture {E : Type} (runOutcome : Except E Unit) : CleanupResult E :=
  match runOutcome with
  | Except.ok _ =>
      -- try branch closed both, then the finally clause closes them again
      ⟨true, true, false, Except.ok ()⟩
  | Except.error e =>
      -- except branch prints and re-raises; the finally clause still closes both
      ⟨true, true, true, Except.error e⟩

/-- Final connection state of prepare_public_transport_stop, which opens a
single connection. -/
structure PrepCleanupResult (E : Type) where
  connClosed : Bool
  outcome : Except E Unit

/-- prepare_public_transport_stop: run the preparation, then close the
connection.  There is no try/finally, so when the run raises, the close
statement is never reached. -/
def preparePublicTransportStop {E : Type} (runOutcome : Except E Unit) :
    PrepCleanupResult E :=
  match runOutcome with
  | Except.ok _ => ⟨true, Except.ok ()⟩
  | Except.error e => ⟨false, Except.error e⟩

/-- Whether an Except value is a success. -/
def exceptIsOk {E A : Type} : Except E A → Bool
  | Except.ok _ => true
  | Except.error _ => false

/-! ## Claim C1 -/

/-- Claim C1, settled against the code: the classifying lateral subquery
sorts the mapped route types but carries no LIMIT, and its IS-NOT-NULL
filter binds to the raw route-type column, so a stop mapped to route types
2 and 5 with both keys present contributes one output row per mapped
category in pass 1 and in pass 2 — not a single row with the mapping of
route type 2 as the claim states. -/
theorem c1_stop_with_two_route_types_yields_two_categories :
    pass1Insert stopsEx stopTimesEx clsEx (fun _ => true)
      = [⟨some "tram", "Hbf", ["S1"], some "P1", [1]⟩,
         ⟨some "ferry", "Hbf", ["S1"], some "P1", [1]⟩]
    ∧ pass2Insert remainingEx stopTimesEx3 clsEx (fun _ => true)
      = [⟨some "tram", "Marktplatz", ["R1"], none, [7]⟩,
         ⟨some "ferry", "Marktplatz", ["R1"], none, [7]⟩] := by
  constructor
  · decide
  · decide

/-! ## Claim C2 -/

/-- Claim C2, counterexample: in the transit-stop Geometry-Clip Loops the
per-polygon INSERT is not guarded, so a failure at the first polygon aborts
the whole pass — the succeeding second polygon is never processed, while the
claim requires the loop to continue. -/
theorem c2_transit_loop_aborts_on_first_failure :
    transitStopLoop [Except.error "division by zero", Except.ok (42 : Nat)] ⟨[], [], 0⟩
      = Except.error "division by zero" := rfl

/-- Characterization of the places loop with an arbitrary starting state. -/
theorem alterTablesLoop_foldl {E A : Type} (outcomes : List (Except E A))
    (st : LoopState E A) :
    outcomes.foldl alterTablesStep st
      = ⟨st.committed ++ outcomes.filterMap okBatch,
         st.errorsLogged ++ outcomes.filterMap errorOf,
         st.timingsLogged + outcomes.length⟩ := by
  induction outcomes generalizing st with
  | nil => simp
  | cons o rest ih =>
    cases o with
    | ok a =>
        simp [List.foldl_cons, alterTablesStep, ih, okBatch, errorOf,
          List.filterMap_cons, List.append_assoc]
        omega
    | error e =>
        simp [List.foldl_cons, alterTablesStep, ih, okBatch, errorOf,
          List.filterMap_cons, List.append_assoc]
        omega

/-- Claim C2 as amended: in the places Geometry-Clip Loop
(alter_tables) a failing polygon is logged and rolled back and the loop
continues — every successful polygon's batch is committed, every error is
logged, and every iteration prints its timing line, whatever the other
outcomes are.  The transit-stop loops have no per-polygon handler and abort
instead. -/
theorem c2_places_loop_continues_after_failure :
    ∀ (E A : Type) (outcomes : List (Except E A)),
      (alterTablesLoop outcomes).committed = outcomes.filterMap okBatch
      ∧ (alterTablesLoop outcomes).errorsLogged = outcomes.filterMap errorOf
      ∧ (alterTablesLoop outcomes).timingsLogged = outcomes.length := by
  intro E A outcomes
  unfold alterTablesLoop
  rw [alterTablesLoop_foldl]
  simp

/-- Witness for the amended claim C2: the spec scenario [failure, success]
commits only the second polygon's batch, logs one error and two timings. -/
theorem c2_places_loop_continues_after_failure_witness :
    (alterTablesLoop [Except.error "division by zero", Except.ok (7 : Nat)]).committed
        = [Except.error "division by zero", Except.ok (7 : Nat)].filterMap okBatch
    ∧ (alterTablesLoop [Except.error "division by zero",
          Except.ok (7 : Nat)]).errorsLogged
        = [Except.error "division by zero", Except.ok (7 : Nat)].filterMap errorOf
    ∧ (alterTablesLoop [Except.error "division by zero",
          Except.ok (7 : Nat)]).timingsLogged
        = [Except.error "division by zero", Except.ok (7 : Nat)].length :=
  c2_places_loop_continues_after_failure String Nat
    [Except.error "division by zero", Except.ok 7]

/-! ## Claim C6 -/

/-- Claim C6, settled against the code: deduplication is per polygon only,
so with a region geometry set whose polygons overlap (here the same polygon
listed twice) a staging row intersecting both is inserted twice —
temporal.places_region holds the id twice and the post-loop
ADD PRIMARY KEY migration fails, contradicting the claimed uniqueness. -/
theorem c6_overlapping_polygons_duplicate_id :
    (alterTablesInserts [placeRawEx] [0, 0] (fun _ _ => true)).map (fun r => r.id)
        = ["a", "a"]
    ∧ convertToRegularTable (alterTablesInserts [placeRawEx] [0, 0] (fun _ _ => true))
        = Except.error "could not create unique index" := by
  constructor
  · decide
  · rfl

/-! ## Claim C7 -/

/-- Claim C7, counterexample: the street pattern is greedy, so on an address
with two whitespace-before-digit boundaries the split is NOT at the first
boundary — the street keeps everything up to the last boundary (the claim
would give street "Main Street"), while the housenumber starts at the first
boundary. -/
theorem c7_street_splits_at_last_boundary :
    streetOf "Main Street 42 Apt 5" = some "Main Street 42 Apt"
    ∧ ¬ streetOf "Main Street 42 Apt 5" = some "Main Street"
    ∧ housenumberOf "Main Street 42 Apt 5" = some "42 Apt 5" := by
  refine ⟨by decide, by decide, by decide⟩

/-- Claim C7 as amended: the housenumber starts at the first
whitespace-before-digit boundary, but the street keeps everything before the
last such boundary; when the address has exactly one boundary the two agree
and the string is split there — in particular "Main Street 42" splits into
street "Main Street" and housenumber "42". -/
theorem c7_single_boundary_splits_street_and_housenumber :
    (∀ (s : String) (i : Nat), boundaryIdxs s.toList = [i] →
      streetOf s = some (String.mk (trimSpaces (s.toList.take i)))
      ∧ housenumberOf s = some (String.mk (trimSpaces (s.toList.drop i))))
    ∧ streetOf "Main Street 42" = some "Main Street"
    ∧ housenumberOf "Main Street 42" = some "42" := by
  refine ⟨?_, by decide, by decide⟩
  intro s i h
  constructor
  · unfold streetOf
    rw [h]
    rfl
  · unfold housenumberOf
    rw [h]
    rfl

/-- Witness for the amended claim C7 at the single-boundary scenario input. -/
theorem c7_single_boundary_splits_street_and_housenumber_witness :
    boundaryIdxs ("Main Street 42".toList) = [11]
    ∧ streetOf "Main Street 42"
        = some (String.mk (trimSpaces ("Main Street 42".toList.take 11))) := by
  exact ⟨by decide,
    (c7_single_boundary_splits_street_and_housenumber.1 "Main Street 42" 11 (by decide)).1⟩

/-! ## Claim C8 -/

/-- Claim C8, counterexample: prepare_public_transport_stop has no cleanup
clause; when the run fails the connection-closing statement is never
reached, so the connection is left open while the exception propagates. -/
theorem c8_prepare_run_failure_leaks_connection :
    (preparePublicTransportStop (Except.error "data source unreachable")).connClosed
      = false
    ∧ (preparePublicTransportStop (Except.error "data source unreachable")).outcome
      = Except.error "data source unreachable" := ⟨rfl, rfl⟩

/-- Claim C8 as amended: collect_poi_overture closes both connections on
every path through its finally clause, prints the error and re-raises the
run outcome on failure; prepare_public_transport_stop propagates the
outcome but closes its connection only when the run succeeds. -/
theorem c8_cleanup_only_in_places_entry_point :
    ∀ (E : Type) (runOutcome : Except E Unit),
      (collectPoiOverture runOutcome).localClosed = true
      ∧ (collectPoiOverture runOutcome).remoteClosed = true
      ∧ (collectPoiOverture runOutcome).outcome = runOutcome
      ∧ (collectPoiOverture runOutcome).errorPrinted = !(exceptIsOk runOutcome)
      ∧ (preparePublicTransportStop runOutcome).outcome = runOutcome
      ∧ (preparePublicTransportStop runOutcome).connClosed = exceptIsOk runOutcome := by
  intro E runOutcome
  cases runOutcome with
  | ok u => simp [collectPoiOverture, preparePublicTransportStop, exceptIsOk]
  | error e => simp [collectPoiOverture, preparePublicTransportStop, exceptIsOk]

/-- Witness for the amended claim C8 on a failing run outcome. -/
theorem c8_cleanup_only_in_places_entry_point_witness :
    (collectPoiOverture (Except.error "boom" : Except String Unit)).localClosed = true
    ∧ (collectPoiOverture (Except.error "boom" : Except String Unit)).remoteClosed = true
    ∧ (collectPoiOverture (Except.error "boom" : Except String Unit)).outcome
        = Except.error "boom"
    ∧ (collectPoiOverture (Except.error "boom" : Except String Unit)).errorPrinted
        = !(exceptIsOk (Except.error "boom" : Except String Unit))
    ∧ (preparePublicTransportStop (Except.error "boom" : Except String Unit)).outcome
        = Except.error "boom"
    ∧ (preparePublicTransportStop (Except.error "boom" : Except String Unit)).connClosed
        = exceptIsOk (Except.error "boom" : Except String Unit) :=
  c8_cleanup_only_in_places_entry_point String (Except.error "boom")

/-! ## Claim C5 -/

/-- Claim C5: temporal.remaining_stations is computed exactly once per run,
between the two polygon loops, and it is exactly the set difference — a stop
row survives the anti-join if and only if its identifier appears neither in
any output row's parent-station linkage nor in any output row's aggregated
source stop-identifier array. -/
theorem c5_remaining_stations_once_and_is_set_difference :
    ∀ (G : Type) (numGeoms : Nat) (stops : List (Stop G)) (rows : List (PTStopRow G))
      (s : Stop G),
      countRemainingComputations (prepRunSteps numGeoms) = 1
      ∧ (s ∈ remainingStations stops rows ↔
          s ∈ stops ∧ ¬ ∃ r ∈ rows, s.stop_id ∈ parentLinkIds r ∨ s.stop_id ∈ r.stop_ids) := by
  intro G numGeoms stops rows s
  constructor
  · have h1 : ∀ x : Nat,
        (PrepStep.pass1Polygon x == PrepStep.computeRemainingStations) = false :=
      fun x => rfl
    have h2 : ∀ x : Nat,
        (PrepStep.pass2Polygon x == PrepStep.computeRemainingStations) = false :=
      fun x => rfl
    have z1 : List.countP
        ((fun st => st == PrepStep.computeRemainingStations) ∘ PrepStep.pass1Polygon)
        (List.range numGeoms) = 0 := by
      rw [List.countP_eq_zero]
      intro a ha hcon
      rw [Function.comp_apply, h1 a] at hcon
      cases hcon
    have z2 : List.countP
        ((fun st => st == PrepStep.computeRemainingStations) ∘ PrepStep.pass2Polygon)
        (List.range numGeoms) = 0 := by
      rw [List.countP_eq_zero]
      intro a ha hcon
      rw [Function.comp_apply, h2 a] at hcon
      cases hcon
    simp [countRemainingComputations, prepRunSteps, List.countP_append, List.countP_map,
      List.countP_cons, List.countP_nil, z1, z2]
  · rw [remainingStations, List.mem_filter]
    have hmem : ((processedStations rows).contains s.stop_id = true) ↔
        (∃ r ∈ rows, s.stop_id ∈ parentLinkIds r ∨ s.stop_id ∈ r.stop_ids) := by
      rw [List.elem_iff]
      simp only [processedStations, List.mem_dedup, List.mem_append, List.mem_flatMap]
      constructor
      · rintro (⟨r, hr, hp⟩ | ⟨r, hr, hs⟩)
        · exact ⟨r, hr, Or.inl hp⟩
        · exact ⟨r, hr, Or.inr hs⟩
      · rintro ⟨r, hr, hp | hs⟩
        · exact Or.inl ⟨r, hr, hp⟩
        · exact Or.inr ⟨r, hr, hs⟩
    constructor
    · rintro ⟨hs, hb⟩
      refine ⟨hs, ?_⟩
      intro hex
      simp only [Bool.not_eq_true'] at hb
      rw [hmem.mpr hex] at hb
      cases hb
    · rintro ⟨hs, hnex⟩
      refine ⟨hs, ?_⟩
      simp only [Bool.not_eq_true']
      cases hc : (processedStations rows).contains s.stop_id with
      | false => rfl
      | true => exact absurd (hmem.mp hc) hnex

/-- Witness for claim C5 at a concrete run of two polygons with two stops
and an empty output table. -/
theorem c5_remaining_stations_once_and_is_set_difference_witness :
    countRemainingComputations (prepRunSteps 2) = 1
    ∧ ((⟨"P1", "Hbf", none, 100, 0⟩ : Stop Nat)
          ∈ remainingStations stopsEx ([] : List (PTStopRow Nat)) ↔
        (⟨"P1", "Hbf", none, 100, 0⟩ : Stop Nat) ∈ stopsEx
        ∧ ¬ ∃ r ∈ ([] : List (PTStopRow Nat)),
            ("P1" : String) ∈ parentLinkIds r ∨ ("P1" : String) ∈ r.stop_ids) :=
  c5_remaining_stations_once_and_is_set_difference Nat 2 stopsEx []
    ⟨"P1", "Hbf", none, 100, 0⟩

/-! ## Row and dataframe lemmas for claims C3 and C9 -/

theorem rowVal_map_update (r : DfRow) (c : String) (v : ColValue) (h : rowHas r c = true) :
    rowVal (r.map (fun kv => if kv.1 == c then (kv.1, v) else kv)) c = v := by
  induction r with
  | nil => cases h
  | cons kv r ih =>
    by_cases hk : (kv.1 == c) = true
    · simp [rowVal, hk]
    · rw [Bool.not_eq_true] at hk
      have h2 : rowHas r c = true := by
        simp only [rowHas, List.any_cons, hk, Bool.false_or] at h
        exact h
      have ih2 := ih h2
      simp [rowVal, hk] at ih2 ⊢
      exact ih2

theorem rowVal_append_missing (r : DfRow) (c : String) (v : ColValue)
    (h : rowHas r c = false) :
    rowVal (r ++ [(c, v)]) c = v := by
  induction r with
  | nil => simp [rowVal]
  | cons kv r ih =>
    simp only [rowHas, List.any_cons, Bool.or_eq_false_iff] at h
    simp [rowVal, h.1, ih (by simpa [rowHas] using h.2)]

theorem rowVal_rowSet_self (r : DfRow) (c : String) (v : ColValue) :
    rowVal (rowSet r c v) c = v := by
  unfold rowSet
  by_cases h : rowHas r c = true
  · rw [if_pos h]
    exact rowVal_map_update r c v h
  · rw [Bool.not_eq_true] at h
    rw [if_neg (by simp [h])]
    exact rowVal_append_missing r c v h

theorem rowVal_map_update_ne (r : DfRow) (c d : String) (v : ColValue)
    (h : (d == c) = false) :
    rowVal (r.map (fun kv => if kv.1 == c then (kv.1, v) else kv)) d = rowVal r d := by
  have hdc : d ≠ c := beq_eq_false_iff_ne.mp h
  induction r with
  | nil => rfl
  | cons kv r ih =>
    by_cases hk : (kv.1 == d) = true
    · have hkc : (kv.1 == c) = false :=
        beq_eq_false_iff_ne.mpr (fun hcon => hdc ((beq_iff_eq.mp hk) ▸ hcon))
      simp [rowVal, hk, hkc]
    · rw [Bool.not_eq_true] at hk
      by_cases hkc : (kv.1 == c) = true
      · simp [rowVal, hk, hkc] at ih ⊢
        exact ih
      · rw [Bool.not_eq_true] at hkc
        simp [rowVal, hk, hkc] at ih ⊢
        exact ih

theorem rowVal_append_ne (r : DfRow) (c d : String) (v : ColValue)
    (h : (d == c) = false) :
    rowVal (r ++ [(c, v)]) d = rowVal r d := by
  have hcd : (c == d) = false :=
    beq_eq_false_iff_ne.mpr (fun hcon => (beq_eq_false_iff_ne.mp h) hcon.symm)
  induction r with
  | nil => simp [rowVal, hcd]
  | cons kv r ih =>
    by_cases hk : (kv.1 == d) = true
    · simp [rowVal, hk]
    · rw [Bool.not_eq_true] at hk
      simp [rowVal, hk, ih]

theorem rowVal_rowSet_ne (r : DfRow) (c d : String) (v : ColValue)
    (h : (d == c) = false) :
    rowVal (rowSet r c v) d = rowVal r d := by
  unfold rowSet
  by_cases hh : rowHas r c = true
  · rw [if_pos hh]
    exact rowVal_map_update_ne r c d v h
  · rw [Bool.not_eq_true] at hh
    rw [if_neg (by simp [hh])]
    exact rowVal_append_ne r c d v h

theorem rowVal_rowDrop_ne (r : DfRow) (c d : String) (h : (d == c) = false) :
    rowVal (rowDrop r c) d = rowVal r d := by
  induction r with
  | nil => rfl
  | cons kv r ih =>
    by_cases hk : (kv.1 == d) = true
    · have hkc : (kv.1 == c) = false :=
        beq_eq_false_iff_ne.mpr
          (fun hcon => (beq_eq_false_iff_ne.mp h) ((beq_iff_eq.mp hk) ▸ hcon))
      simp [rowDrop, rowVal, hk, hkc]
    · rw [Bool.not_eq_true] at hk
      by_cases hkc : (kv.1 == c) = true
      · simpa [rowDrop, rowVal, hk, hkc] using ih
      · rw [Bool.not_eq_true] at hkc
        simpa [rowDrop, rowVal, hk, hkc] using ih

theorem withColumn_cols_of_mem {df : SparkDataFrame} {c : String}
    (f : DfRow → ColValue) (h : c ∈ df.cols) :
    (df.withColumn c f).cols = df.cols := by
  unfold SparkDataFrame.withColumn
  rw [if_pos (List.elem_iff.mpr h)]

theorem complexColumnStep_cols_of_mem {df : SparkDataFrame} {c : String}
    (h : c ∈ df.cols) :
    (complexColumnStep df c).cols = df.cols := by
  unfold complexColumnStep
  by_cases hc : (c == "updatetime") = true
  · rw [if_pos hc]
    exact withColumn_cols_of_mem _ h
  · rw [Bool.not_eq_true] at hc
    rw [if_neg (by simp [hc])]
    exact withColumn_cols_of_mem _ h

theorem foldl_complexColumnStep_cols :
    ∀ (l : List String) (df : SparkDataFrame), (∀ c ∈ l, c ∈ df.cols) →
      (l.foldl complexColumnStep df).cols = df.cols := by
  intro l
  induction l with
  | nil => intro df _; rfl
  | cons c l ih =>
    intro df h
    have hc : c ∈ df.cols := h c (List.mem_cons_self _ _)
    have hstep : (complexColumnStep df c).cols = df.cols := complexColumnStep_cols_of_mem hc
    rw [List.foldl_cons, ih (complexColumnStep df c)
      (fun x hx => by rw [hstep]; exact h x (List.mem_cons_of_mem _ hx)), hstep]

theorem complexColumnStep_rows (df : SparkDataFrame) (c : String) :
    (complexColumnStep df c).rows = df.rows.map (fun r => complexRowStep r c) := by
  unfold complexColumnStep complexRowStep SparkDataFrame.withColumn
  by_cases hc : (c == "updatetime") = true
  · simp [hc]
  · rw [Bool.not_eq_true] at hc
    simp [hc]

theorem foldl_complexColumnStep_rows :
    ∀ (l : List String) (df : SparkDataFrame),
      (l.foldl complexColumnStep df).rows
        = df.rows.map (fun r => l.foldl complexRowStep r) := by
  intro l
  induction l with
  | nil => intro df; simp
  | cons c l ih =>
    intro df
    rw [List.foldl_cons, ih (complexColumnStep df c), complexColumnStep_rows,
      List.map_map]
    rfl

theorem filterRows_rows (df : SparkDataFrame) (p : DfRow → Bool) :
    (df.filterRows p).rows = df.rows.filter p := rfl

theorem dropColumn_rows (df : SparkDataFrame) (c : String) :
    (df.dropColumn c).rows = df.rows.map (fun r => rowDrop r c) := rfl

theorem withColumn_rows (df : SparkDataFrame) (c : String) (f : DfRow → ColValue) :
    (df.withColumn c f).rows = df.rows.map (fun r => rowSet r c (f r)) := rfl

/-- The pipeline of filter_region_places with the discarded projection
removed: filter the source dataframe, drop bbox, transform the complex
columns, set geometry. -/
theorem filterRegionPlaces_eq (placesDf : SparkDataFrame) (box : BBoxCoords) :
    filterRegionPlaces placesDf box
      = ((overtureComplexColumns.foldl complexColumnStep
          ((placesDf.filterRows (bboxInsideStrict box)).dropColumn "bbox")).withColumn
            "geometry" (fun r => ColValue.wktText (rowVal r "geometry"))) := rfl

/-- The rows of filter_region_places are exactly the source rows surviving
the strict bounding-box filter, each sent through the per-row transform. -/
theorem filterRegionPlaces_rows (placesDf : SparkDataFrame) (box : BBoxCoords) :
    (filterRegionPlaces placesDf box).rows
      = (placesDf.rows.filter (bboxInsideStrict box)).map overtureRowTransform := by
  rw [filterRegionPlaces_eq]
  rw [withColumn_rows]
  rw [foldl_complexColumnStep_rows]
  rw [dropColumn_rows]
  rw [filterRows_rows]
  rw [List.map_map, List.map_map]
  have hfun : (((fun r => rowSet r "geometry" (ColValue.wktText (rowVal r "geometry")))
        ∘ (fun r => overtureComplexColumns.foldl complexRowStep r))
        ∘ (fun r => rowDrop r "bbox"))
      = overtureRowTransform := by
    funext r
    simp only [Function.comp_apply]
    rfl
  rw [hfun]

theorem bboxInsideStrict_eq_true_iff (box : BBoxCoords) (r : DfRow) :
    bboxInsideStrict box r = true ↔
      ∃ minx miny maxx maxy,
        rowVal r "bbox" = ColValue.bboxStruct minx miny maxx maxy
        ∧ box.xmin < minx ∧ box.ymin < miny ∧ maxx < box.xmax ∧ maxy < box.ymax := by
  unfold bboxInsideStrict
  cases hv : rowVal r "bbox" with
  | bboxStruct a b c d =>
      simp only [hv, Bool.and_eq_true, decide_eq_true_eq, gt_iff_lt]
      constructor
      · rintro ⟨⟨⟨h1, h2⟩, h3⟩, h4⟩
        exact ⟨a, b, c, d, rfl, h1, h2, h3, h4⟩
      · rintro ⟨x, y, z, w, heq, h1, h2, h3, h4⟩
        injection heq with e1 e2 e3 e4
        subst e1
        subst e2
        subst e3
        subst e4
        exact ⟨⟨⟨h1, h2⟩, h3⟩, h4⟩
  | null => simp [hv]
  | base s => simp [hv]
  | jsonText v => simp [hv]
  | timestamp v => simp [hv]
  | wktText v => simp [hv]

/-! ## Claim C3 -/

/-- Claim C3: every row emitted by the Region Filter comes from a source row
whose bounding box satisfies the four strict inequalities against the target
box, and any row whose box touches the boundary fails the filter
predicate. -/
theorem c3_region_filter_strict_containment :
    (∀ (placesDf : SparkDataFrame) (box : BBoxCoords) (r2 : DfRow),
      r2 ∈ (filterRegionPlaces placesDf box).rows →
      ∃ r ∈ placesDf.rows, r2 = overtureRowTransform r ∧
        ∃ minx miny maxx maxy,
          rowVal r "bbox" = ColValue.bboxStruct minx miny maxx maxy
          ∧ box.xmin < minx ∧ box.ymin < miny ∧ maxx < box.xmax ∧ maxy < box.ymax)
    ∧ (∀ (box : BBoxCoords) (r : DfRow) (minx miny maxx maxy : Rat),
        rowVal r "bbox" = ColValue.bboxStruct minx miny maxx maxy →
        (minx = box.xmin ∨ miny = box.ymin ∨ maxx = box.xmax ∨ maxy = box.ymax) →
        bboxInsideStrict box r = false) := by
  constructor
  · intro placesDf box r2 hmem
    rw [filterRegionPlaces_rows] at hmem
    rcases List.mem_map.mp hmem with ⟨r, hr, rfl⟩
    rcases List.mem_filter.mp hr with ⟨hrs, hpred⟩
    rcases (bboxInsideStrict_eq_true_iff box r).mp hpred with
      ⟨a, b, c, d, hv, h1, h2, h3, h4⟩
    exact ⟨r, hrs, rfl, a, b, c, d, hv, h1, h2, h3, h4⟩
  · intro box r minx miny maxx maxy hv hcase
    cases hb : bboxInsideStrict box r with
    | false => rfl
    | true =>
      rcases (bboxInsideStrict_eq_true_iff box r).mp hb with
        ⟨a, b, c, d, hv2, h1, h2, h3, h4⟩
      rw [hv] at hv2
      injection hv2 with ea eb ec ed
      subst ea
      subst eb
      subst ec
      subst ed
      rcases hcase with h | h | h | h
      · exact absurd (h ▸ h1) (lt_irrefl _)
      · exact absurd (h ▸ h2) (lt_irrefl _)
      · exact absurd (h ▸ h3) (lt_irrefl _)
      · exact absurd (h ▸ h4) (lt_irrefl _)

/-- Example source row strictly inside the target box, with an extra column
the projection list does not mention. -/
def placesSrcRowEx : DfRow :=
  [("id", ColValue.base "poi1"), ("updatetime", ColValue.base "2023-01-01"),
   ("version", ColValue.base "1"), ("names", ColValue.base "names-payload"),
   ("categories", ColValue.base "cats-payload"), ("confidence", ColValue.base "0.9"),
   ("websites", ColValue.base "w"), ("socials", ColValue.base "so"),
   ("emails", ColValue.base "e"), ("phones", ColValue.base "ph"),
   ("brand", ColValue.base "b"), ("addresses", ColValue.base "addr"),
   ("sources", ColValue.base "srcs"), ("geometry", ColValue.base "POINT (1.5 1.5)"),
   ("bbox", ColValue.bboxStruct 1 1 2 2), ("osm_extra", ColValue.base "kept")]

/-- Example source row whose box minx lies exactly on the target boundary. -/
def placesBoundaryRowEx : DfRow :=
  [("id", ColValue.base "poi2"), ("updatetime", ColValue.base "2023-01-02"),
   ("version", ColValue.base "2"), ("names", ColValue.base "names2"),
   ("categories", ColValue.base "cats2"), ("confidence", ColValue.base "0.5"),
   ("websites", ColValue.base "w2"), ("socials", ColValue.base "so2"),
   ("emails", ColValue.base "e2"), ("phones", ColValue.base "ph2"),
   ("brand", ColValue.base "b2"), ("addresses", ColValue.base "addr2"),
   ("sources", ColValue.base "srcs2"), ("geometry", ColValue.base "POINT (0 1)"),
   ("bbox", ColValue.bboxStruct 0 1 2 2), ("osm_extra", ColValue.base "kept2")]

/-- Example places dataframe with both rows. -/
def placesDfEx : SparkDataFrame :=
  ⟨["id", "updatetime", "version", "names", "categories", "confidence", "websites",
    "socials", "emails", "phones", "brand", "addresses", "sources", "geometry",
    "bbox", "osm_extra"],
   [placesSrcRowEx, placesBoundaryRowEx]⟩

/-- Example target bounding box. -/
def boxEx : BBoxCoords := ⟨0, 0, 3, 3⟩

/-- Witness for claim C3 at a concrete dataframe. -/
theorem c3_region_filter_strict_containment_witness :
    (overtureRowTransform placesSrcRowEx ∈ (filterRegionPlaces placesDfEx boxEx).rows)
    ∧ ∃ r ∈ placesDfEx.rows,
        overtureRowTransform placesSrcRowEx = overtureRowTransform r ∧
        ∃ minx miny maxx maxy,
          rowVal r "bbox" = ColValue.bboxStruct minx miny maxx maxy
          ∧ boxEx.xmin < minx ∧ boxEx.ymin < miny ∧ maxx < boxEx.xmax
          ∧ maxy < boxEx.ymax :=
  ⟨by decide,
   c3_region_filter_strict_containment.1 placesDfEx boxEx
     (overtureRowTransform placesSrcRowEx) (by decide)⟩

/-! ## Claim C9 -/

/-- Claim C9: the initial projection of filter_region_places is applied to a
discarded intermediate — the bounding-box filter runs on the unprojected
source dataframe — so the result keeps every source column except bbox
(including columns the projection list never mentions); the complex columns
are serialized to JSON text, updatetime is cast to a timestamp, and geometry
is replaced by its WKT text, while all other columns pass through
unchanged. -/
theorem c9_filter_applies_to_unprojected_source :
    ∀ (placesDf : SparkDataFrame) (box : BBoxCoords),
      (∀ c ∈ overtureComplexColumns, c ∈ placesDf.cols) →
      "geometry" ∈ placesDf.cols →
      ((filterRegionPlaces placesDf box).cols
          = placesDf.cols.filter (fun c => !(c == "bbox"))
        ∧ (filterRegionPlaces placesDf box).rows
            = (placesDf.rows.filter (bboxInsideStrict box)).map overtureRowTransform
        ∧ (∀ r : DfRow,
            rowVal (overtureRowTransform r) "updatetime"
              = ColValue.timestamp (rowVal r "updatetime"))
        ∧ (∀ r : DfRow, ∀ c ∈ overtureComplexColumns, ¬ c = "updatetime" →
            rowVal (overtureRowTransform r) c = ColValue.jsonText (rowVal r c))
        ∧ (∀ r : DfRow,
            rowVal (overtureRowTransform r) "geometry"
              = ColValue.wktText (rowVal r "geometry"))
        ∧ (∀ r : DfRow, ∀ c : String, ¬ c ∈ overtureComplexColumns →
            ¬ c = "geometry" → ¬ c = "bbox" →
            rowVal (overtureRowTransform r) c = rowVal r c)) := by
  intro placesDf box h1 h2
  have hmem1 : ∀ c ∈ overtureComplexColumns,
      c ∈ ((placesDf.filterRows (bboxInsideStrict box)).dropColumn "bbox").cols := by
    intro c hc
    have hne : ¬ c = "bbox" := by
      intro h
      subst h
      revert hc
      decide
    refine List.mem_filter.mpr ⟨h1 c hc, ?_⟩
    simp [hne]
  have hfold : ((overtureComplexColumns.foldl complexColumnStep
      ((placesDf.filterRows (bboxInsideStrict box)).dropColumn "bbox")).cols)
      = ((placesDf.filterRows (bboxInsideStrict box)).dropColumn "bbox").cols :=
    foldl_complexColumnStep_cols _ _ hmem1
  have hgeo : "geometry" ∈ ((overtureComplexColumns.foldl complexColumnStep
      ((placesDf.filterRows (bboxInsideStrict box)).dropColumn "bbox")).cols) := by
    rw [hfold]
    refine List.mem_filter.mpr ⟨h2, by decide⟩
  refine ⟨?_, filterRegionPlaces_rows placesDf box, ?_, ?_, ?_, ?_⟩
  · rw [filterRegionPlaces_eq, withColumn_cols_of_mem _ hgeo, hfold]
    rfl
  · intro r
    simp [overtureRowTransform, overtureComplexColumns, complexRowStep, List.foldl,
      rowVal_rowSet_self, rowVal_rowSet_ne, rowVal_rowDrop_ne]
  · intro r c hc hne
    simp only [overtureComplexColumns, List.mem_cons, List.not_mem_nil, or_false] at hc
    rcases hc with rfl | rfl | rfl | rfl | rfl | rfl | rfl | rfl | rfl | rfl
    · exact absurd rfl hne
    all_goals
      simp [overtureRowTransform, overtureComplexColumns, complexRowStep, List.foldl,
        rowVal_rowSet_self, rowVal_rowSet_ne, rowVal_rowDrop_ne]
  · intro r
    simp [overtureRowTransform, overtureComplexColumns, complexRowStep, List.foldl,
      rowVal_rowSet_self, rowVal_rowSet_ne, rowVal_rowDrop_ne]
  · intro r c hnc hng hnb
    have hb : ∀ d ∈ overtureComplexColumns, (c == d) = false := by
      intro d hd
      rw [beq_eq_false_iff_ne]
      intro h
      subst h
      exact hnc hd
    have hb0 : (c == "updatetime") = false := hb _ (by decide)
    have hb1 : (c == "names") = false := hb _ (by decide)
    have hb2 : (c == "categories") = false := hb _ (by decide)
    have hb3 : (c == "brand") = false := hb _ (by decide)
    have hb4 : (c == "addresses") = false := hb _ (by decide)
    have hb5 : (c == "sources") = false := hb _ (by decide)
    have hb6 : (c == "websites") = false := hb _ (by decide)
    have hb7 : (c == "socials") = false := hb _ (by decide)
    have hb8 : (c == "emails") = false := hb _ (by decide)
    have hb9 : (c == "phones") = false := hb _ (by decide)
    have hbg : (c == "geometry") = false := beq_eq_false_iff_ne.mpr hng
    have hbb : (c == "bbox") = false := beq_eq_false_iff_ne.mpr hnb
    simp [overtureRowTransform, overtureComplexColumns, complexRowStep, List.foldl,
      rowVal_rowSet_ne, rowVal_rowDrop_ne, hb0, hb1, hb2, hb3, hb4, hb5, hb6, hb7,
      hb8, hb9, hbg, hbb]

/-- Witness for claim C9 at a concrete dataframe: the extra source column
survives and only bbox is removed. -/
theorem c9_filter_applies_to_unprojected_source_witness :
    (∀ c ∈ overtureComplexColumns, c ∈ placesDfEx.cols)
    ∧ "geometry" ∈ placesDfEx.cols
    ∧ (filterRegionPlaces placesDfEx boxEx).cols
        = placesDfEx.cols.filter (fun c => !(c == "bbox")) :=
  ⟨by decide, by decide,
   (c9_filter_applies_to_unprojected_source placesDfEx boxEx (by decide) (by decide)).1⟩

/-! ## Lemmas on the transit passes for claims C4 and C10 -/

theorem clippedGtfsStops_mem {G : Type} {stops : List (Stop G)} {inPoly : G → Bool}
    {c : ClippedStop G} :
    c ∈ clippedGtfsStops stops inPoly ↔
      ∃ s ∈ stops.filter (fun s => inPoly s.geom && s.parent_station.isSome),
        ∃ p ∈ parentStationName stops inPoly,
          s.parent_station = some p.2
          ∧ c = ⟨p.1, s.geom, s.stop_id, s.parent_station, s.h3_3⟩ := by
  unfold clippedGtfsStops
  rw [List.mem_flatMap]
  constructor
  · rintro ⟨s, hs, hc⟩
    rcases List.mem_filterMap.mp hc with ⟨p, hp, hsome⟩
    by_cases h : s.parent_station = some p.2
    · rw [if_pos h] at hsome
      exact ⟨s, hs, p, hp, h, (Option.some.inj hsome).symm⟩
    · rw [if_neg h] at hsome
      cases hsome
  · rintro ⟨s, hs, p, hp, h, rfl⟩
    exact ⟨s, hs, List.mem_filterMap.mpr ⟨p, hp, by rw [if_pos h]⟩⟩

theorem parentStationName_inj {G : Type} {stops : List (Stop G)} {inPoly : G → Bool}
    (hnd : (stops.map (fun s => s.stop_id)).Nodup)
    {p q : String × String} (hp : p ∈ parentStationName stops inPoly)
    (hq : q ∈ parentStationName stops inPoly) (h2 : p.2 = q.2) : p = q := by
  unfold parentStationName at hp hq
  rcases List.mem_map.mp hp with ⟨s, hs, rfl⟩
  rcases List.mem_map.mp hq with ⟨t, ht, rfl⟩
  have hst : s = t :=
    List.inj_on_of_nodup_map hnd (List.mem_of_mem_filter hs)
      (List.mem_of_mem_filter ht) (by simpa using h2)
  subst hst
  rfl

theorem clippedGtfsStops_stop_id_inj {G : Type} {stops : List (Stop G)}
    {inPoly : G → Bool} (hnd : (stops.map (fun s => s.stop_id)).Nodup)
    {c1 c2 : ClippedStop G} (h1 : c1 ∈ clippedGtfsStops stops inPoly)
    (h2 : c2 ∈ clippedGtfsStops stops inPoly)
    (hid : c1.stop_id = c2.stop_id) : c1 = c2 := by
  rcases clippedGtfsStops_mem.mp h1 with ⟨s, hs, p, hp, hsp, rfl⟩
  rcases clippedGtfsStops_mem.mp h2 with ⟨t, ht, q, hq, htq, rfl⟩
  have hst : s = t :=
    List.inj_on_of_nodup_map hnd (List.mem_of_mem_filter hs)
      (List.mem_of_mem_filter ht) hid
  subst hst
  have hpq : p = q :=
    parentStationName_inj hnd hp hq (Option.some.inj (hsp.symm.trans htq))
  subst hpq
  rfl

theorem mem_categorizedFrom {G : Type} {cls : Classification}
    {stopTimes : List StopTime} {clipped : List (ClippedStop G)}
    {e : Option String × ClippedStop G} :
    e ∈ categorizedFrom cls stopTimes clipped ↔
      e.2 ∈ clipped ∧ e.1 ∈ mappedCategories cls stopTimes e.2 := by
  unfold categorizedFrom
  rw [List.mem_flatMap]
  constructor
  · rintro ⟨c, hc, he⟩
    rcases List.mem_map.mp he with ⟨cat, hcat, rfl⟩
    exact ⟨hc, hcat⟩
  · rintro ⟨hc, hcat⟩
    exact ⟨e.2, hc, List.mem_map.mpr ⟨e.1, hcat, rfl⟩⟩

theorem mappedCategories_stoptime_source {G : Type} {cls : Classification}
    {stopTimes : List StopTime} {c : ClippedStop G} {cat : Option String}
    (h : cat ∈ mappedCategories cls stopTimes c) :
    ∃ o ∈ stopTimes, o.stop_id = c.stop_id ∧ o.route_type ∈ routeTypeKeys cls := by
  unfold mappedCategories at h
  rcases List.mem_map.mp h with ⟨rt, hrt, rfl⟩
  unfold distinctRouteTypes at hrt
  rw [mem_sortAsc, List.mem_dedup] at hrt
  rcases List.mem_map.mp hrt with ⟨o, ho, rfl⟩
  rcases List.mem_filter.mp ho with ⟨ho2, hcond⟩
  simp only [Bool.and_eq_true, beq_iff_eq] at hcond
  exact ⟨o, ho2, hcond.1.1, List.elem_iff.mp hcond.2⟩

theorem mem_stop_ids_pass1RowOf {G : Type} {catz : List (Option String × ClippedStop G)}
    {k : Option String × Option String × String} {sid : String} :
    sid ∈ (pass1RowOf catz k).stop_ids ↔
      ∃ e ∈ catz, pass1Key e = k ∧ e.2.stop_id = sid := by
  unfold pass1RowOf
  constructor
  · intro h
    rcases List.mem_map.mp h with ⟨e, he, rfl⟩
    rcases List.mem_filter.mp he with ⟨he2, hk⟩
    exact ⟨e, he2, beq_iff_eq.mp hk, rfl⟩
  · rintro ⟨e, he, hk, rfl⟩
    exact List.mem_map.mpr ⟨e, List.mem_filter.mpr ⟨he, beq_iff_eq.mpr hk⟩, rfl⟩

theorem mem_stop_ids_pass2RowOf {G : Type} {catz : List (Option String × ClippedStop G)}
    {k : Option String × String} {sid : String} :
    sid ∈ (pass2RowOf catz k).stop_ids ↔
      ∃ e ∈ catz, pass2Key e = k ∧ e.2.stop_id = sid := by
  unfold pass2RowOf
  constructor
  · intro h
    rcases List.mem_map.mp h with ⟨e, he, rfl⟩
    rcases List.mem_filter.mp he with ⟨he2, hk⟩
    exact ⟨e, he2, beq_iff_eq.mp hk, rfl⟩
  · rintro ⟨e, he, hk, rfl⟩
    exact List.mem_map.mpr ⟨e, List.mem_filter.mpr ⟨he, beq_iff_eq.mpr hk⟩, rfl⟩

theorem stop_ids_source_pass1Rows {G : Type} [DecidableEq G]
    {catz : List (Option String × ClippedStop G)} {r : PTStopRow G} {sid : String}
    (hr : r ∈ pass1Rows catz) (hs : sid ∈ r.stop_ids) :
    ∃ e ∈ catz, e.2.stop_id = sid := by
  unfold pass1Rows at hr
  rcases List.mem_map.mp hr with ⟨k, _, rfl⟩
  rcases mem_stop_ids_pass1RowOf.mp hs with ⟨e, he, _, hsid⟩
  exact ⟨e, he, hsid⟩

theorem stop_ids_source_pass2Rows {G : Type} [DecidableEq G]
    {catz : List (Option String × ClippedStop G)} {r : PTStopRow G} {sid : String}
    (hr : r ∈ pass2Rows catz) (hs : sid ∈ r.stop_ids) :
    ∃ e ∈ catz, e.2.stop_id = sid := by
  unfold pass2Rows at hr
  rcases List.mem_map.mp hr with ⟨k, _, rfl⟩
  rcases mem_stop_ids_pass2RowOf.mp hs with ⟨e, he, _, hsid⟩
  exact ⟨e, he, hsid⟩

/-! ## Claim C4 -/

/-- Claim C4, counterexample: a child stop whose route types map to two
distinct categories is aggregated into TWO pass-1 output rows (one per
category), so its identifier does not appear in exactly one row's
tags.extended_source.stop_id array. -/
theorem c4_child_stop_id_in_two_rows :
    (pass1Insert stopsEx stopTimesEx clsEx (fun _ => true)).countP
      (fun r => r.stop_ids.contains "S1") = 2 := by decide

/-- Claim C4 as amended: within a single pass-1 polygon insert, and assuming
basic.stops has pairwise-distinct stop identifiers, a clipped child stop's
identifier appears in exactly one output row per distinct mapped category of
that stop; it recurs across distinct categories (and across overlapping
polygon iterations), not at most once overall. -/
theorem c4_one_row_per_mapped_category :
    ∀ (G : Type) [inst : DecidableEq G] (stops : List (Stop G))
      (stopTimes : List StopTime) (cls : Classification) (inPoly : G → Bool)
      (c : ClippedStop G) (cat : Option String),
      ((stops.map (fun s => s.stop_id)).Nodup) →
      c ∈ clippedGtfsStops stops inPoly →
      cat ∈ mappedCategories cls stopTimes c →
      (pass1Insert stops stopTimes cls inPoly).countP
        (fun r => r.category == cat && r.stop_ids.contains c.stop_id) = 1 := by
  intro G inst stops stopTimes cls inPoly c cat hnd hc hcat
  have hCmem : (cat, c) ∈ categorizedGtfsStops stops stopTimes cls inPoly :=
    mem_categorizedFrom.mpr ⟨hc, hcat⟩
  simp only [pass1Insert, pass1Rows]
  rw [List.countP_map]
  refine countP_eq_one_of_mem_unique _ (cat, c.parent_station, c.name) _
    (List.nodup_dedup _) ?_ ?_
  · exact List.mem_dedup.mpr (List.mem_map.mpr ⟨(cat, c), hCmem, rfl⟩)
  · intro k hk
    constructor
    · intro hp
      simp only [Function.comp_apply] at hp
      rw [Bool.and_eq_true] at hp
      rcases hp with ⟨hcatk, hcont⟩
      have hk1cat : k.1 = cat := beq_iff_eq.mp hcatk
      have hmemid : c.stop_id ∈ (pass1RowOf (categorizedGtfsStops stops stopTimes cls
          inPoly) k).stop_ids := List.elem_iff.mp hcont
      rcases mem_stop_ids_pass1RowOf.mp hmemid with ⟨e, he, hke, heid⟩
      have hclip : e.2 ∈ clippedGtfsStops stops inPoly := (mem_categorizedFrom.mp he).1
      have he2 : e.2 = c := clippedGtfsStops_stop_id_inj hnd hclip hc heid
      have hkeq : k = (e.1, e.2.parent_station, e.2.name) := hke.symm
      rw [he2] at hkeq
      have he1 : e.1 = cat := by
        rw [hkeq] at hk1cat
        exact hk1cat
      rw [hkeq, he1]
    · intro hkk
      subst hkk
      simp only [Function.comp_apply]
      rw [Bool.and_eq_true]
      refine ⟨beq_self_eq_true _, ?_⟩
      apply List.elem_iff.mpr
      exact mem_stop_ids_pass1RowOf.mpr ⟨(cat, c), hCmem, rfl, rfl⟩

/-- Witness for the amended claim C4 at a concrete input. -/
theorem c4_one_row_per_mapped_category_witness :
    ((stopsEx.map (fun s => s.stop_id)).Nodup)
    ∧ ((⟨"Hbf", 1, "S1", some "P1", 100⟩ : ClippedStop Nat)
        ∈ clippedGtfsStops stopsEx (fun _ => true))
    ∧ (some "tram" ∈ mappedCategories clsEx stopTimesEx
        (⟨"Hbf", 1, "S1", some "P1", 100⟩ : ClippedStop Nat))
    ∧ (pass1Insert stopsEx stopTimesEx clsEx (fun _ => true)).countP
        (fun r => r.category == some "tram"
          && r.stop_ids.contains (⟨"Hbf", 1, "S1", some "P1", 100⟩ :
              ClippedStop Nat).stop_id) = 1 :=
  ⟨by decide, by decide, by decide,
   c4_one_row_per_mapped_category Nat stopsEx stopTimesEx clsEx (fun _ => true)
     ⟨"Hbf", 1, "S1", some "P1", 100⟩ (some "tram") (by decide) (by decide) (by decide)⟩

/-! ## Claim C10 -/

/-- Claim C10, counterexample: the null filter of the lateral subquery binds
to the raw route-type column, so a stop whose only route type is a
classification key mapped to JSON null is NOT excluded — it is inserted with
a null category, where the claim says such a stop produces no output row. -/
theorem c10_null_mapped_route_type_inserted :
    pass1Insert stopsEx stopTimesEx2 clsEx2 (fun _ => true)
      = [⟨none, "Hbf", ["S1"], some "P1", [1]⟩] := by decide

/-- Claim C10 as amended: a stop with no stop-time entry at all, or whose
route types all lie outside the classification table's key set, contributes
to no output row of either pass; but a stop whose route type is a present
key with a null mapped value is inserted with a null category. -/
theorem c10_keyless_stops_excluded :
    ∀ (G : Type) [inst : DecidableEq G] (stops remaining : List (Stop G))
      (stopTimes : List StopTime) (cls : Classification) (inPoly : G → Bool)
      (sid : String),
      (∀ o ∈ stopTimes, o.stop_id = sid → ¬ o.route_type ∈ routeTypeKeys cls) →
      (∀ r ∈ pass1Insert stops stopTimes cls inPoly, ¬ sid ∈ r.stop_ids)
      ∧ (∀ r ∈ pass2Insert remaining stopTimes cls inPoly, ¬ sid ∈ r.stop_ids) := by
  intro G inst stops remaining stopTimes cls inPoly sid h
  constructor
  · intro r hr hs
    simp only [pass1Insert, categorizedGtfsStops] at hr
    rcases stop_ids_source_pass1Rows hr hs with ⟨e, he, hsid⟩
    rcases (mem_categorizedFrom.mp he) with ⟨_, hcat⟩
    rcases mappedCategories_stoptime_source hcat with ⟨o, ho, hoid, hort⟩
    exact h o ho (hoid.trans hsid) hort
  · intro r hr hs
    simp only [pass2Insert] at hr
    rcases stop_ids_source_pass2Rows hr hs with ⟨e, he, hsid⟩
    rcases (mem_categorizedFrom.mp he) with ⟨_, hcat⟩
    rcases mappedCategories_stoptime_source hcat with ⟨o, ho, hoid, hort⟩
    exact h o ho (hoid.trans hsid) hort

/-- Witness for the amended claim C10 at a concrete input: stop S1 is served
only by route type 5, absent from the classification keys, and lands in no
output row. -/
theorem c10_keyless_stops_excluded_witness :
    (∀ o ∈ stopTimesEx2, o.stop_id = "S1" → ¬ o.route_type ∈ routeTypeKeys clsEx3)
    ∧ (∀ r ∈ pass1Insert stopsEx stopTimesEx2 clsEx3 (fun _ => true),
        ¬ "S1" ∈ r.stop_ids) :=
  ⟨by decide,
   (c10_keyless_stops_excluded Nat stopsEx stopsEx stopTimesEx2 clsEx3
     (fun _ => true) "S1" (by decide)).1⟩

end DataPreparation
